import Mathlib

/-!
Shallow embedding of the build-time Mixcloud data loaders of the
thegroovelibrary repository and proofs about them.

Embedded code:
* the loop-based paginated loader that appears verbatim in both
  `src/_data/eastonChopUp.js` and `src/_data/theJapanGrooveLibrary.js`
  (`fetchWithRetry`, `fetchPlaylistCloudcasts`, the exported default
  function) — namespace `Loader` holds the shared inner functions, and
  `EastonChopUp` / `TheJapanGrooveLibrary` the per-file exports;
* the recursive loader of `src/_data/mixcloud.js` (`fetchWithRetry`,
  `fetchAllCloudcasts`, `fetchUserProfile`, the default export) —
  namespace `Mixcloud`;
* the manual-tracklist machinery of `src/_data/theJapanGrooveLibrary.js`
  (`mergeTracklists` and the tracklists.json read with its catch-all).

Modelling conventions.  The external HTTP API is an oracle
(`Behavior` / `MixBehavior`): the n-th `fetch` performed by a load
returns the n-th oracle value, so the oracle covers arbitrary,
time-varying server behaviour.  A `fetch` either rejects with a network
error or resolves to a response with a status, a status text and a body;
the body is an `Except` because `response.json()` may itself reject.
`setTimeout` sleeps are recorded as the list of waited durations in
milliseconds.  JavaScript truthiness that the code relies on is embedded
explicitly (`orNull` for `x || null` on strings, the `|| default`
fall-throughs on numbers/strings in the rate-limit payload handling).
The `fetchedAt` timestamp of the result records is wall-clock time and
is not modelled; no claim concerns it.  The unbounded `while` loop of
`mixcloud.js` (which has no page ceiling) is embedded with a fuel
parameter: returning `none` at fuel exhaustion for every fuel value
corresponds to the JavaScript loop never terminating.
-/

namespace GrooveLib

variable {α : Type}

/-- JS `response.ok`: status in the inclusive range 200–299. -/
def respOk (status : Nat) : Bool := 200 ≤ status && status ≤ 299

/-- JS `x || null` on an optional string: the empty string is falsy and
becomes `null`. -/
def orNull : Option String → Option String
  | some s => if s = "" then none else some s
  | none => none

/-- Boolean substring test on character lists. -/
def hasInfixChars (needle : List Char) : List Char → Bool
  | [] => needle.isEmpty
  | c :: t => needle.isPrefixOf (c :: t) || hasInfixChars needle t

/-- Boolean substring test on strings: does `s` mention `needle`? -/
def mentions (needle s : String) : Bool := hasInfixChars needle.toList s.toList

namespace Loader

/-- One parsed page body of the playlist endpoint: `data` is the page's
item list (`none` when the JSON has no truthy `data` field) and `next`
is `paging?.next` before the `|| null` coercion. -/
structure Page (α : Type) where
  data : Option (List α)
  next : Option String

/-- Outcome of a single `fetch` call. -/
inductive FetchOutcome (α : Type) where
  | netError (msg : String)
  | response (status : Nat) (statusText : String) (body : Except String (Page α))

/-- The external API as an oracle over the global fetch counter. -/
def Behavior (α : Type) : Type := Nat → FetchOutcome α

/-- Observable output of one `fetchWithRetry` call: the returned value or
thrown error, the number of `fetch` calls made, and the sleeps (ms). -/
structure RetryOut (α : Type) where
  result : Except String (Option (Page α))
  calls : Nat
  waits : List Nat

/-- Loop body of `fetchWithRetry(url, retries = 3, delay = 1000)` from
eastonChopUp.js / theJapanGrooveLibrary.js, by recursion on the number
of remaining `for` iterations (`r + 1` remaining means the JS index `i`
satisfies `i = retries - (r + 1)`, so `r = 0` is the last attempt, where
the `catch` rethrows).  A 429 status sleeps, doubles the delay and
`continue`s; on a fall-through of the loop (every attempt rate-limited)
the JS function returns `undefined`, embedded as `.ok none`. -/
def fetchWithRetryGo (b : Behavior α) (url : String) : Nat → Nat → Nat → RetryOut α
  | _, 0, _ => ⟨.ok none, 0, []⟩
  | c, r + 1, delay =>
    match b c with
    | .netError msg =>
      if r = 0 then ⟨.error msg, 1, []⟩
      else
        let o := fetchWithRetryGo b url (c + 1) r (delay * 2)
        ⟨o.result, o.calls + 1, delay :: o.waits⟩
    | .response status statusText body =>
      if status = 429 then
        let o := fetchWithRetryGo b url (c + 1) r (delay * 2)
        ⟨o.result, o.calls + 1, delay :: o.waits⟩
      else if respOk status then
        match body with
        | .ok page => ⟨.ok (some page), 1, []⟩
        | .error m =>
          if r = 0 then ⟨.error m, 1, []⟩
          else
            let o := fetchWithRetryGo b url (c + 1) r (delay * 2)
            ⟨o.result, o.calls + 1, delay :: o.waits⟩
      else
        if r = 0 then ⟨.error ("HTTP " ++ toString status ++ ": " ++ statusText), 1, []⟩
        else
          let o := fetchWithRetryGo b url (c + 1) r (delay * 2)
          ⟨o.result, o.calls + 1, delay :: o.waits⟩

/-- `fetchWithRetry(url)` with the source defaults `retries = 3`,
`delay = 1000`, issued when the global fetch counter is `c`. -/
def fetchWithRetry (b : Behavior α) (c : Nat) (url : String) : RetryOut α :=
  fetchWithRetryGo b url c 3 1000

/-- Message of the TypeError raised by the `data.data` access when
`fetchWithRetry` returned `undefined` (modelled without quotation
characters). -/
def undefinedDataMsg : String :=
  "TypeError: Cannot read properties of undefined (reading data)"

/-- Output of the pagination loop: the accumulated items or the thrown
error, and the final `pageCount`. -/
structure LoopOut (α : Type) where
  result : Except String (List α)
  pages : Nat

/-- `API_BASE_URL` constant of the playlist data files. -/
def API_BASE_URL : String := "https://api.mixcloud.com"

/-- Initial page URL built by `fetchPlaylistCloudcasts`. -/
def playlistUrl (username playlistSlug : String) : String :=
  API_BASE_URL ++ "/" ++ username ++ "/playlists/" ++ playlistSlug ++ "/cloudcasts/"

/-- The `while (url && pageCount < 100)` loop of
`fetchPlaylistCloudcasts`, by recursion on `100 - pageCount` (the
`fuel`).  Each iteration calls `fetchWithRetry`; `data.data`, when
truthy, is appended to the accumulator; the cursor advances to
`data.paging?.next || null`; `pageCount` increments.  When
`fetchWithRetry` returned `undefined` (`.ok none`) the `data.data`
access throws a TypeError. -/
def fetchPlaylistGo (b : Behavior α) : Nat → Option String → List α → Nat → Nat → LoopOut α
  | 0, _, acc, _, pg => ⟨.ok acc, pg⟩
  | _ + 1, none, acc, _, pg => ⟨.ok acc, pg⟩
  | fuel + 1, some u, acc, c, pg =>
    match fetchWithRetry b c u with
    | ⟨.error e, _, _⟩ => ⟨.error e, pg⟩
    | ⟨.ok none, _, _⟩ => ⟨.error undefinedDataMsg, pg⟩
    | ⟨.ok (some page), calls, _⟩ =>
      fetchPlaylistGo b fuel (orNull page.next) (acc ++ page.data.getD []) (c + calls) (pg + 1)

/-- `fetchPlaylistCloudcasts(username, playlistSlug)`. -/
def fetchPlaylistCloudcasts (b : Behavior α) (username playlistSlug : String) : LoopOut α :=
  fetchPlaylistGo b 100 (some (playlistUrl username playlistSlug)) [] 0 0

/-- Spec-side companion of `fetchPlaylistGo` that records, page by page
and in fetch order, the item list of each page retrieved (empty list for
a page with no truthy `data` field).  Its branching and counter
arithmetic mirror `fetchPlaylistGo` exactly, so a successful loop's
accumulator is the concatenation of these pages. -/
def retrievedPagesGo (b : Behavior α) : Nat → Option String → Nat → List (List α)
  | 0, _, _ => []
  | _ + 1, none, _ => []
  | fuel + 1, some u, c =>
    match fetchWithRetry b c u with
    | ⟨.error _, _, _⟩ => []
    | ⟨.ok none, _, _⟩ => []
    | ⟨.ok (some page), calls, _⟩ =>
      page.data.getD [] :: retrievedPagesGo b fuel (orNull page.next) (c + calls)

/-- Pages retrieved by `fetchPlaylistCloudcasts`, in page order. -/
def retrievedPages (b : Behavior α) (username playlistSlug : String) : List (List α) :=
  retrievedPagesGo b 100 (some (playlistUrl username playlistSlug)) 0

/-- The record returned by a playlist data file's default export
(`playlistSlug`, `cloudcasts`, `count`, optional `error`; the
`fetchedAt` timestamp is not modelled). -/
structure PlaylistResult (α : Type) where
  playlistSlug : String
  cloudcasts : List α
  count : Nat
  error : Option String

end Loader

namespace EastonChopUp

/-- `MIXCLOUD_USERNAME` constant of eastonChopUp.js. -/
def MIXCLOUD_USERNAME : String := "legendarymusic"

/-- `PLAYLIST_SLUG` constant of eastonChopUp.js. -/
def PLAYLIST_SLUG : String := "easton-chop-up"

/-- The default export of eastonChopUp.js: run the pagination loop
inside `try`; on success return the populated record, in `catch` return
the record with empty `cloudcasts`, zero `count` and the error message.
The outer `Except` layer is the promise itself: `.error` would be a
rejection escaping to the caller. -/
def load (b : Loader.Behavior α) : Except String (Loader.PlaylistResult α) :=
  match (Loader.fetchPlaylistCloudcasts b MIXCLOUD_USERNAME PLAYLIST_SLUG).result with
  | .ok cs => .ok ⟨PLAYLIST_SLUG, cs, cs.length, none⟩
  | .error e => .ok ⟨PLAYLIST_SLUG, [], 0, some e⟩

end EastonChopUp

namespace TheJapanGrooveLibrary

/-- `track.artist` / `track.name` pair inside a generated section. -/
structure TrackRef where
  artist : String
  name : String

/-- One entry of the API-format `sections` array generated by
`mergeTracklists`. -/
structure Section where
  section_type : String
  position : Nat
  track : TrackRef
  start_time : Option Nat

/-- One entry of the manual tracklist format in tracklists.json. -/
structure Track where
  position : Nat
  artist : String
  track : String
  start_time : Option Nat

/-- A cloudcast as consumed by `mergeTracklists`: its stable `key` plus
the metadata fields the loader passes through untouched. -/
structure Cloudcast where
  key : String
  name : String
  url : String
  created_time : String
  audio_length : Nat
  sections : Option (List Section)

/-- The parsed tracklists.json: cloudcast slug to manual track list. -/
def TracklistTable : Type := List (String × List Track)

/-- JS `track.start_time || null`: `0` is falsy and becomes `null`. -/
def startTimeOrNull : Option Nat → Option Nat
  | some n => if n = 0 then none else some n
  | none => none

/-- `replace(/^\//, '')`: drop one leading slash (working on the
character list keeps the definition kernel-reducible). -/
def stripLeadingSlash (s : String) : String :=
  match s.data with
  | '/' :: rest => String.mk rest
  | _ => s

/-- `replace(/\/$/, '')`: drop one trailing slash. -/
def stripTrailingSlash (s : String) : String :=
  if s.data.getLast? = some '/' then String.mk s.data.dropLast else s

/-- The slug computed from `cloudcast.key` by `mergeTracklists`. -/
def normalizedKey (k : String) : String :=
  stripTrailingSlash (stripLeadingSlash k)

/-- JS object lookup `manualTracklists[slug]` on the parsed table. -/
def tableLookup : TracklistTable → String → Option (List Track)
  | [], _ => none
  | (k, v) :: rest, key => if k = key then some v else tableLookup rest key

/-- Conversion of a manual tracklist to API-format `sections`. -/
def tracksToSections (tracks : List Track) : List Section :=
  tracks.map fun t => ⟨"track", t.position, ⟨t.artist, t.track⟩, startTimeOrNull t.start_time⟩

/-- The per-cloudcast body of the `map` inside `mergeTracklists`: spread
the cloudcast and set `sections` when the table has the slug, else
return the cloudcast unchanged. -/
def mergeOne (table : TracklistTable) (c : Cloudcast) : Cloudcast :=
  match tableLookup table (normalizedKey c.key) with
  | some tracks => { c with sections := some (tracksToSections tracks) }
  | none => c

/-- `mergeTracklists(cloudcasts)` of theJapanGrooveLibrary.js, with the
closed-over `manualTracklists` table made an explicit argument. -/
def mergeTracklists (table : TracklistTable) (cloudcasts : List Cloudcast) : List Cloudcast :=
  cloudcasts.map (mergeOne table)

/-- Result of the tracklists.json load: the table in use afterwards and
whether the catch branch warned. -/
structure TableLoad where
  table : TracklistTable
  warned : Bool

/-- The tracklists.json read at the top of the default export: parse
result on success; on any read/parse error, warn and proceed with the
empty table. -/
def loadManualTracklists (file : Except String TracklistTable) : TableLoad :=
  match file with
  | .ok t => ⟨t, false⟩
  | .error _ => ⟨[], true⟩

/-- `PLAYLIST_SLUG` constant of theJapanGrooveLibrary.js. -/
def PLAYLIST_SLUG : String := "the-japan-groove-library"

/-- `MIXCLOUD_USERNAME` constant of theJapanGrooveLibrary.js. -/
def MIXCLOUD_USERNAME : String := "legendarymusic"

/-- The default export of theJapanGrooveLibrary.js: load the manual
table, run the shared pagination loop inside `try`, merge tracklists on
success; the `catch` returns the empty record with the error message. -/
def load (file : Except String TracklistTable) (b : Loader.Behavior Cloudcast) :
    Except String (Loader.PlaylistResult Cloudcast) :=
  let mt := loadManualTracklists file
  match (Loader.fetchPlaylistCloudcasts b MIXCLOUD_USERNAME PLAYLIST_SLUG).result with
  | .ok cs =>
    .ok ⟨PLAYLIST_SLUG, mergeTracklists mt.table cs, (mergeTracklists mt.table cs).length, none⟩
  | .error e => .ok ⟨PLAYLIST_SLUG, [], 0, some e⟩

end TheJapanGrooveLibrary

namespace Mixcloud

/-- The `errorData.error` payload read by mixcloud.js on a non-2xx
response. -/
structure ErrInfo where
  type : String
  retry_after : Option Nat
  message : Option String

/-- A parsed JSON document as mixcloud.js reads it: the optional error
payload, the optional `data` item array, and `paging?.next`. -/
structure MixDoc (α : Type) where
  errorPayload : Option ErrInfo
  data : Option (List α)
  next : Option String

/-- Outcome of a single `fetch` call for mixcloud.js. -/
inductive MixOutcome (α : Type) where
  | netError (msg : String)
  | response (status : Nat) (statusText : String) (body : Except String (MixDoc α))

/-- The external API as an oracle over the fetch counter. -/
def MixBehavior (α : Type) : Type := Nat → MixOutcome α

/-- `await response.json().catch(() => ({}))`: a body parse failure
yields `{}`, whose `error` field is absent. -/
def errField : Except String (MixDoc α) → Option ErrInfo
  | .ok d => d.errorPayload
  | .error _ => none

/-- The `API Error: status - (errorData.error?.message || statusText)`
message thrown by mixcloud.js (the empty message string is falsy). -/
def apiErrorMsg (status : Nat) (statusText : String) (e : Option ErrInfo) : String :=
  "API Error: " ++ toString status ++ " - " ++
    (match e with
     | some err =>
       match err.message with
       | some m => if m = "" then statusText else m
       | none => statusText
     | none => statusText)

/-- Observable output of one mixcloud.js `fetchWithRetry` call chain:
the returned response body or thrown error, the number of `fetch` calls
made, and the sleeps (ms).  The inner `Except` is the body that the
CALLER parses with `response.json()` (a parse failure there is not
retried by `fetchWithRetry`). -/
structure RetryOut (α : Type) where
  result : Except String (Except String (MixDoc α))
  calls : Nat
  waits : List Nat

/-- `MAX_RETRIES` constant of mixcloud.js. -/
def MAX_RETRIES : Nat := 3

/-- `INITIAL_RETRY_DELAY` constant of mixcloud.js. -/
def INITIAL_RETRY_DELAY : Nat := 1000

/-- The recursive `fetchWithRetry(url, retryCount)` of mixcloud.js, by
recursion on `MAX_RETRIES - retryCount` (`left`), keeping `retryCount`
(`rc`) for the backoff computation.  When `left = 0` (`retryCount` has
reached `MAX_RETRIES`) no branch retries: the rate-limit check fails its
`retryCount < MAX_RETRIES` conjunct, so a non-2xx response throws the
API error, and the `catch` rethrows.  `return fetchWithRetry(...)`
without `await` means a rejection of the recursive call is NOT caught by
the enclosing `try`, which the direct composition below reflects. -/
def fetchWithRetryGo (b : MixBehavior α) (url : String) : Nat → Nat → Nat → RetryOut α
  | c, 0, _ =>
    match b c with
    | .netError msg => ⟨.error msg, 1, []⟩
    | .response status statusText body =>
      if respOk status then ⟨.ok body, 1, []⟩
      else ⟨.error (apiErrorMsg status statusText (errField body)), 1, []⟩
  | c, left + 1, rc =>
    match b c with
    | .netError _ =>
      let o := fetchWithRetryGo b url (c + 1) left (rc + 1)
      ⟨o.result, o.calls + 1, (INITIAL_RETRY_DELAY * 2 ^ rc) :: o.waits⟩
    | .response status _ body =>
      if respOk status then ⟨.ok body, 1, []⟩
      else
        match errField body with
        | some err =>
          if err.type = "RateLimited" then
            let ra :=
              match err.retry_after with
              | some n => if n = 0 then 2 ^ rc else n
              | none => 2 ^ rc
            let o := fetchWithRetryGo b url (c + 1) left (rc + 1)
            ⟨o.result, o.calls + 1, (ra * 1000) :: o.waits⟩
          else
            let o := fetchWithRetryGo b url (c + 1) left (rc + 1)
            ⟨o.result, o.calls + 1, (INITIAL_RETRY_DELAY * 2 ^ rc) :: o.waits⟩
        | none =>
          let o := fetchWithRetryGo b url (c + 1) left (rc + 1)
          ⟨o.result, o.calls + 1, (INITIAL_RETRY_DELAY * 2 ^ rc) :: o.waits⟩

/-- `fetchWithRetry(url)` of mixcloud.js, issued at fetch counter `c`,
starting at `retryCount = 0`. -/
def fetchWithRetry (b : MixBehavior α) (c : Nat) (url : String) : RetryOut α :=
  fetchWithRetryGo b url c MAX_RETRIES 0

/-- `API_BASE` constant of mixcloud.js. -/
def API_BASE : String := "https://api.mixcloud.com"

/-- `MIXCLOUD_USERNAME` constant of mixcloud.js. -/
def MIXCLOUD_USERNAME : String := "legendarymusic"

/-- URL fetched by `fetchUserProfile`. -/
def profileUrl : String := API_BASE ++ "/" ++ MIXCLOUD_USERNAME ++ "/"

/-- Initial cloudcasts page URL of `fetchAllCloudcasts`. -/
def initialCloudcastsUrl : String :=
  API_BASE ++ "/" ++ MIXCLOUD_USERNAME ++ "/cloudcasts/?limit=100"

/-- `fetchUserProfile(username)`: fetch the profile URL with retry and
parse the body; a body parse rejection propagates. -/
def fetchUserProfile (b : MixBehavior α) (c : Nat) : Except String (MixDoc α) :=
  match (fetchWithRetry b c profileUrl).result with
  | .error e => .error e
  | .ok (.error m) => .error m
  | .ok (.ok d) => .ok d

/-- The `while (nextUrl)` loop of `fetchAllCloudcasts`, which has NO
page-count ceiling, embedded with a fuel parameter bounding how many
iterations we are willing to unfold: `none` means the fuel ran out with
the loop still going (for every fuel value, this is divergence).  On
success, returns the accumulated items and the number of pages fetched
(the page counter is instrumentation mirroring loop iterations;
mixcloud.js keeps no such variable because it never bounds them). -/
def fetchAllGo (b : MixBehavior α) : Nat → Option String → List α → Nat → Nat →
    Option (Except String (List α × Nat))
  | _, none, acc, _, pg => some (.ok (acc, pg))
  | 0, some _, _, _, _ => none
  | fuel + 1, some u, acc, c, pg =>
    match fetchWithRetry b c u with
    | ⟨.error e, _, _⟩ => some (.error e)
    | ⟨.ok (.error m), _, _⟩ => some (.error m)
    | ⟨.ok (.ok doc), calls, _⟩ =>
      fetchAllGo b fuel (orNull doc.next) (acc ++ doc.data.getD []) (c + calls) (pg + 1)

/-- `fetchAllCloudcasts(username)` of mixcloud.js, with fuel. -/
def fetchAllCloudcasts (b : MixBehavior α) (fuel : Nat) : Option (Except String (List α × Nat)) :=
  fetchAllGo b fuel (some initialCloudcastsUrl) [] 0 0

/-- Spec-side companion of `fetchAllGo` recording the item list of each
page retrieved, in page order (mirrors the loop's branching; the value
in the two error branches is irrelevant, as the loop yields an error
there). -/
def mixPagesGo (b : MixBehavior α) : Nat → Option String → Nat → Option (List (List α))
  | _, none, _ => some []
  | 0, some _, _ => none
  | fuel + 1, some u, c =>
    match fetchWithRetry b c u with
    | ⟨.error _, _, _⟩ => some []
    | ⟨.ok (.error _), _, _⟩ => some []
    | ⟨.ok (.ok doc), calls, _⟩ =>
      (mixPagesGo b fuel (orNull doc.next) (c + calls)).map (doc.data.getD [] :: ·)

/-- Pages retrieved by `fetchAllCloudcasts`, in page order. -/
def mixPages (b : MixBehavior α) (fuel : Nat) : Option (List (List α)) :=
  mixPagesGo b fuel (some initialCloudcastsUrl) 0

/-- The record returned by mixcloud.js's default export (`fetchedAt`
timestamp not modelled). -/
structure MixResult (α : Type) where
  username : String
  profile : Option (MixDoc α)
  cloudcasts : List α
  count : Nat
  error : Option String

/-- The default export of mixcloud.js.  `Promise.all` runs the profile
fetch and the pagination concurrently over independent request streams
(`bp`, `bc`); it rejects as soon as either rejects, and settles only
when both settle.  The profile fetch always settles (its retries are
bounded), so: a profile rejection yields the catch record regardless of
the pagination; otherwise the pagination decides, and a diverging
pagination (`none` for the given fuel) leaves the whole call unsettled.
The outer `Except` layer is the returned promise: `.error` would be a
rejection escaping the caller, which the `try`/`catch` prevents. -/
def load (bp bc : MixBehavior α) (fuel : Nat) : Option (Except String (MixResult α)) :=
  match fetchUserProfile bp 0 with
  | .error e => some (.ok ⟨MIXCLOUD_USERNAME, none, [], 0, some e⟩)
  | .ok p =>
    match fetchAllCloudcasts bc fuel with
    | none => none
    | some (.error e) => some (.ok ⟨MIXCLOUD_USERNAME, none, [], 0, some e⟩)
    | some (.ok (cs, _)) => some (.ok ⟨MIXCLOUD_USERNAME, some p, cs, cs.length, none⟩)

/-- The default export's promise eventually settles for some fuel. -/
def Resolves (bp bc : MixBehavior α) : Prop := ∃ n x, load bp bc n = some x

end Mixcloud

end GrooveLib

namespace GrooveLib

/-! ### Concrete oracles and data for the closed statements -/

/-- Oracle serving three pages of two items each, then end of
pagination. -/
def b3 : Loader.Behavior Nat := fun n =>
  if n = 0 then .response 200 "OK" (.ok ⟨some [1, 2], some "u"⟩)
  else if n = 1 then .response 200 "OK" (.ok ⟨some [3, 4], some "u"⟩)
  else .response 200 "OK" (.ok ⟨some [5, 6], none⟩)

/-- Oracle answering HTTP 500 to every request. -/
def b500 : Loader.Behavior Nat :=
  fun _ => .response 500 "Internal Server Error" (.ok ⟨none, none⟩)

/-- Oracle answering HTTP 429 to every request. -/
def b429 : Loader.Behavior Nat :=
  fun _ => .response 429 "Too Many Requests" (.ok ⟨none, none⟩)

/-- Oracle answering 429 to the first request and a single two-item page
to the next one. -/
def b429once : Loader.Behavior Nat := fun n =>
  if n = 0 then .response 429 "Too Many Requests" (.error "rate limit body")
  else .response 200 "OK" (.ok ⟨some [7, 8], none⟩)

/-- Oracle always serving a one-item page carrying a next pointer: the
pagination never ends upstream. -/
def bCyc : Loader.Behavior Nat := fun c => .response 200 "OK" (.ok ⟨some [c], some "u"⟩)

/-- Oracle serving one good two-item page and then only HTTP 500. -/
def b2fail : Loader.Behavior Nat := fun n =>
  if n = 0 then .response 200 "OK" (.ok ⟨some [1, 2], some "u"⟩)
  else .response 500 "Internal Server Error" (.ok ⟨none, none⟩)

/-- Mixcloud oracle answering HTTP 500 to every request. -/
def m500 : Mixcloud.MixBehavior Nat :=
  fun _ => .response 500 "Internal Server Error" (.ok ⟨none, none, none⟩)

/-- Mixcloud oracle serving 101 one-item pages and then ending the
pagination. -/
def m101 : Mixcloud.MixBehavior Nat := fun c =>
  .response 200 "OK" (.ok ⟨none, some [c], if c + 1 < 101 then some "u" else none⟩)

/-- Mixcloud oracle always serving a page with a next pointer: the
pagination never ends upstream. -/
def mCyc : Mixcloud.MixBehavior Nat :=
  fun _ => .response 200 "OK" (.ok ⟨none, some [0], some "u"⟩)

/-- Mixcloud oracle serving a single one-item page (and a parseable
profile document). -/
def mOk : Mixcloud.MixBehavior Nat := fun _ => .response 200 "OK" (.ok ⟨none, some [5], none⟩)

/-- The settled value of `Mixcloud.load mOk mOk 1`. -/
def mOkResult : Except String (Mixcloud.MixResult Nat) :=
  .ok ⟨"legendarymusic", some ⟨none, some [5], none⟩, [5], 1, none⟩

/-- A cloudcast whose key has a manual tracklist in `table0`. -/
def cJGL : TheJapanGrooveLibrary.Cloudcast :=
  ⟨"/legendarymusic/mix-1/", "Mix 1", "https://www.mixcloud.com/legendarymusic/mix-1/",
    "2024-01-01T00:00:00Z", 3600, none⟩

/-- A cloudcast whose key has no manual tracklist in `table0`. -/
def cOther : TheJapanGrooveLibrary.Cloudcast :=
  ⟨"/legendarymusic/other/", "Other", "https://www.mixcloud.com/legendarymusic/other/",
    "2024-02-02T00:00:00Z", 1800, none⟩

/-- A one-entry manual tracklist (with a falsy `start_time`). -/
def tr0 : List TheJapanGrooveLibrary.Track := [⟨1, "Some Artist", "Some Title", some 0⟩]

/-- A one-entry manual tracklist table keyed by `cJGL`'s slug. -/
def table0 : TheJapanGrooveLibrary.TracklistTable := [("legendarymusic/mix-1", tr0)]

/-- Oracle serving a single page containing only `cJGL`. -/
def bTJ : Loader.Behavior TheJapanGrooveLibrary.Cloudcast :=
  fun _ => .response 200 "OK" (.ok ⟨some [cJGL], none⟩)

end GrooveLib
namespace GrooveLib

/-! ### Helper lemmas -/

namespace Loader

variable {α : Type}

/-- A successful pagination loop returns its starting accumulator
followed by the concatenation, in page order, of the pages recorded by
`retrievedPagesGo`. -/
theorem fetchPlaylistGo_ok_flatten (b : Behavior α) :
    ∀ (fuel : Nat) (url : Option String) (acc : List α) (c pg : Nat) (l : List α),
      (fetchPlaylistGo b fuel url acc c pg).result = .ok l →
      l = acc ++ (retrievedPagesGo b fuel url c).flatten := by
  intro fuel
  induction fuel with
  | zero =>
    intro url acc c pg l h
    simp only [fetchPlaylistGo, retrievedPagesGo] at h ⊢
    cases h
    simp
  | succ fuel ih =>
    intro url acc c pg l h
    cases url with
    | none =>
      simp only [fetchPlaylistGo, retrievedPagesGo] at h ⊢
      cases h
      simp
    | some u =>
      simp only [fetchPlaylistGo, retrievedPagesGo] at h ⊢
      rcases hr : fetchWithRetry b c u with ⟨res, calls, waits⟩
      rw [hr] at h
      rcases res with e | op
      · simp at h
      · rcases op with _ | page
        · simp at h
        · dsimp only at h ⊢
          rw [List.flatten_cons]
          have := ih (orNull page.next) (acc ++ page.data.getD []) (c + calls) (pg + 1) l h
          rw [this, List.append_assoc]

/-- The pagination loop runs at most `fuel` more iterations: its final
page counter is bounded by `pg + fuel`. -/
theorem fetchPlaylistGo_pages_le (b : Behavior α) :
    ∀ (fuel : Nat) (url : Option String) (acc : List α) (c pg : Nat),
      (fetchPlaylistGo b fuel url acc c pg).pages ≤ pg + fuel := by
  intro fuel
  induction fuel with
  | zero =>
    intro url acc c pg
    simp [fetchPlaylistGo]
  | succ fuel ih =>
    intro url acc c pg
    cases url with
    | none => simp [fetchPlaylistGo]
    | some u =>
      simp only [fetchPlaylistGo]
      rcases hr : fetchWithRetry b c u with ⟨res, calls, waits⟩
      rcases res with e | op
      · dsimp only; omega
      · rcases op with _ | page
        · dsimp only; omega
        · dsimp only
          have := ih (orNull page.next) (acc ++ page.data.getD []) (c + calls) (pg + 1)
          omega

end Loader

namespace Mixcloud

variable {α : Type}

/-- A successful run of the `fetchAllCloudcasts` loop returns its
starting accumulator followed by the concatenation, in page order, of
the pages recorded by `mixPagesGo`. -/
theorem fetchAllGo_ok_flatten (b : MixBehavior α) :
    ∀ (fuel : Nat) (url : Option String) (acc : List α) (c pg : Nat) (l : List α) (pgOut : Nat),
      fetchAllGo b fuel url acc c pg = some (.ok (l, pgOut)) →
      ∃ pages, mixPagesGo b fuel url c = some pages ∧ l = acc ++ pages.flatten := by
  intro fuel
  induction fuel with
  | zero =>
    intro url acc c pg l pgOut h
    cases url with
    | none =>
      simp only [fetchAllGo] at h
      rw [Option.some_inj] at h
      cases h
      exact ⟨[], rfl, by simp⟩
    | some u => simp [fetchAllGo] at h
  | succ fuel ih =>
    intro url acc c pg l pgOut h
    cases url with
    | none =>
      simp only [fetchAllGo] at h
      rw [Option.some_inj] at h
      cases h
      exact ⟨[], rfl, by simp⟩
    | some u =>
      simp only [fetchAllGo] at h
      simp only [mixPagesGo]
      rcases hr : fetchWithRetry b c u with ⟨res, calls, waits⟩
      rw [hr] at h
      rcases res with e | body
      · simp at h
      · rcases body with m | doc
        · simp at h
        · dsimp only at h ⊢
          obtain ⟨pages, hp, hl⟩ :=
            ih (orNull doc.next) (acc ++ doc.data.getD []) (c + calls) (pg + 1) l pgOut h
          refine ⟨doc.data.getD [] :: pages, ?_, ?_⟩
          · rw [hp]; rfl
          · rw [hl]; simp [List.append_assoc]

end Mixcloud

/-- Under the always-next oracle `mCyc`, the uncapped pagination loop of
mixcloud.js exhausts any amount of fuel: the JavaScript loop never
terminates. -/
theorem mCyc_fetchAllGo_none :
    ∀ (fuel : Nat) (u : String) (acc : List Nat) (c pg : Nat),
      Mixcloud.fetchAllGo mCyc fuel (some u) acc c pg = none := by
  intro fuel
  induction fuel with
  | zero => intro u acc c pg; rfl
  | succ fuel ih =>
    intro u acc c pg
    show Mixcloud.fetchAllGo mCyc fuel (orNull (some "u")) _ _ _ = none
    exact ih "u" _ _ _

namespace TheJapanGrooveLibrary

/-- Merging with the empty table is the identity. -/
theorem mergeTracklists_nil (cs : List Cloudcast) : mergeTracklists [] cs = cs := by
  induction cs with
  | nil => rfl
  | cons c t ih =>
    simp only [mergeTracklists, List.map_cons] at ih ⊢
    rw [ih]
    rfl

end TheJapanGrooveLibrary

end GrooveLib
namespace GrooveLib

/-! ### Claims -/

/-- Claim C1, counterexample to "always resolves to a result record":
under an oracle that always supplies a next-page pointer, the mixcloud.js
default export never settles for any amount of fuel — its uncapped
pagination loop runs forever, so the promise neither resolves nor
rejects. -/
theorem c1_counterexample : ¬ Mixcloud.Resolves mCyc mCyc := by
  intro hr
  obtain ⟨n, x, h⟩ := hr
  have hp : Mixcloud.fetchUserProfile (α := Nat) mCyc 0 = .ok ⟨none, some [0], some "u"⟩ := rfl
  have hc : Mixcloud.fetchAllCloudcasts mCyc n = none :=
    mCyc_fetchAllGo_none n Mixcloud.initialCloudcastsUrl [] 0 0
  unfold Mixcloud.load at h
  rw [hp, hc] at h
  exact Option.noConfusion h

/-- Claim C1 (amended): the playlist data files' entry points always
resolve to a result record — never throw or reject — for every oracle,
with all failure encoded in the record's error field; the mixcloud.js
entry point never throws or rejects either, and every outcome it settles
on is a result record, but (lacking a page ceiling) it can fail to
settle at all, as the counterexample shows. -/
theorem c1_amended :
    (∀ (b : Loader.Behavior Nat), ∃ r, EastonChopUp.load b = .ok r) ∧
    (∀ (file : Except String TheJapanGrooveLibrary.TracklistTable)
       (b : Loader.Behavior TheJapanGrooveLibrary.Cloudcast),
       ∃ r, TheJapanGrooveLibrary.load file b = .ok r) ∧
    (∀ (bp bc : Mixcloud.MixBehavior Nat) (n : Nat) (x : Except String (Mixcloud.MixResult Nat)),
       Mixcloud.load bp bc n = some x → ∃ r, x = .ok r) := by
  refine ⟨?_, ?_, ?_⟩
  · intro b
    rcases hp : (Loader.fetchPlaylistCloudcasts b EastonChopUp.MIXCLOUD_USERNAME
        EastonChopUp.PLAYLIST_SLUG).result with e | cs
    · exact ⟨⟨EastonChopUp.PLAYLIST_SLUG, [], 0, some e⟩, by
        unfold EastonChopUp.load; rw [hp]⟩
    · exact ⟨⟨EastonChopUp.PLAYLIST_SLUG, cs, cs.length, none⟩, by
        unfold EastonChopUp.load; rw [hp]⟩
  · intro file b
    rcases hp : (Loader.fetchPlaylistCloudcasts b TheJapanGrooveLibrary.MIXCLOUD_USERNAME
        TheJapanGrooveLibrary.PLAYLIST_SLUG).result with e | cs
    · exact ⟨⟨TheJapanGrooveLibrary.PLAYLIST_SLUG, [], 0, some e⟩, by
        unfold TheJapanGrooveLibrary.load; rw [hp]⟩
    · exact ⟨⟨TheJapanGrooveLibrary.PLAYLIST_SLUG,
          TheJapanGrooveLibrary.mergeTracklists (TheJapanGrooveLibrary.loadManualTracklists file).table cs,
          (TheJapanGrooveLibrary.mergeTracklists (TheJapanGrooveLibrary.loadManualTracklists file).table cs).length,
          none⟩, by
        unfold TheJapanGrooveLibrary.load; rw [hp]⟩
  · intro bp bc n x h
    unfold Mixcloud.load at h
    rcases hp : Mixcloud.fetchUserProfile bp 0 with e | p <;> rw [hp] at h
    · exact ⟨_, (Option.some_inj.mp h).symm⟩
    · rcases hc : Mixcloud.fetchAllCloudcasts bc n with _ | r2 <;> rw [hc] at h
      · exact Option.noConfusion h
      · rcases r2 with e2 | ⟨cs, pg⟩ <;> dsimp only at h
        · exact ⟨_, (Option.some_inj.mp h).symm⟩
        · exact ⟨_, (Option.some_inj.mp h).symm⟩

/-- Claim C1, witness: the amended theorem applied to the three-page
oracle and to a settled mixcloud.js run. -/
theorem c1_witness :
    (∃ r, EastonChopUp.load b3 = .ok r) ∧ (∃ r, mOkResult = .ok r) :=
  ⟨c1_amended.1 b3, c1_amended.2.2 mOk mOk 1 mOkResult rfl⟩

end GrooveLib
namespace GrooveLib

/-- Claim C2: in every result record the loaders return, a present
failure field comes with an empty item list and a zero count, and an
absent failure field comes with the items being exactly the
concatenation, in page order, of every page retrieved (so no
duplication, no gaps) and the count being their number. -/
theorem c2_result_invariant :
    (∀ (b : Loader.Behavior Nat) (r : Loader.PlaylistResult Nat),
       EastonChopUp.load b = .ok r →
       (r.error.isSome → r.cloudcasts = [] ∧ r.count = 0) ∧
       (r.error = none →
         r.cloudcasts =
           (Loader.retrievedPages b EastonChopUp.MIXCLOUD_USERNAME
             EastonChopUp.PLAYLIST_SLUG).flatten ∧
         r.count = r.cloudcasts.length)) ∧
    (∀ (bp bc : Mixcloud.MixBehavior Nat) (n : Nat) (r : Mixcloud.MixResult Nat),
       Mixcloud.load bp bc n = some (.ok r) →
       (r.error.isSome → r.cloudcasts = [] ∧ r.count = 0) ∧
       (r.error = none →
         ∃ pages, Mixcloud.mixPages bc n = some pages ∧
           r.cloudcasts = pages.flatten ∧ r.count = r.cloudcasts.length)) := by
  constructor
  · intro b r h
    unfold EastonChopUp.load at h
    rcases hp : (Loader.fetchPlaylistCloudcasts b EastonChopUp.MIXCLOUD_USERNAME
        EastonChopUp.PLAYLIST_SLUG).result with e | cs <;> rw [hp] at h
    · injection h with h'
      subst h'
      constructor
      · intro _; exact ⟨rfl, rfl⟩
      · intro hn; exact Option.noConfusion hn
    · injection h with h'
      subst h'
      constructor
      · intro hs; simp at hs
      · intro _
        refine ⟨?_, rfl⟩
        have := Loader.fetchPlaylistGo_ok_flatten b 100
          (some (Loader.playlistUrl EastonChopUp.MIXCLOUD_USERNAME EastonChopUp.PLAYLIST_SLUG))
          [] 0 0 cs hp
        simpa using this
  · intro bp bc n r h
    unfold Mixcloud.load at h
    rcases hp : Mixcloud.fetchUserProfile bp 0 with e | p <;> rw [hp] at h
    · rw [Option.some_inj] at h
      injection h with h'
      subst h'
      constructor
      · intro _; exact ⟨rfl, rfl⟩
      · intro hn; exact Option.noConfusion hn
    · rcases hc : Mixcloud.fetchAllCloudcasts bc n with _ | r2 <;> rw [hc] at h
      · exact Option.noConfusion h
      · rcases r2 with e2 | ⟨cs, pg⟩ <;> dsimp only at h <;> rw [Option.some_inj] at h <;>
          injection h with h' <;> subst h'
        · constructor
          · intro _; exact ⟨rfl, rfl⟩
          · intro hn; exact Option.noConfusion hn
        · constructor
          · intro hs; simp at hs
          · intro _
            obtain ⟨pages, hpg, hl⟩ := Mixcloud.fetchAllGo_ok_flatten bc n
              (some Mixcloud.initialCloudcastsUrl) [] 0 0 cs pg hc
            exact ⟨pages, hpg, by simpa using hl, rfl⟩

/-- Claim C2, witness: the invariant applied to a successful three-page
run (failure absent) and to an all-500 run (failure present). -/
theorem c2_witness :
    (⟨"easton-chop-up", [1, 2, 3, 4, 5, 6], 6, none⟩ : Loader.PlaylistResult Nat).cloudcasts =
        (Loader.retrievedPages b3 EastonChopUp.MIXCLOUD_USERNAME
          EastonChopUp.PLAYLIST_SLUG).flatten ∧
    (⟨"easton-chop-up", [], 0, some "HTTP 500: Internal Server Error"⟩ :
        Loader.PlaylistResult Nat).cloudcasts = [] :=
  ⟨((c2_result_invariant.1 b3 ⟨"easton-chop-up", [1, 2, 3, 4, 5, 6], 6, none⟩ rfl).2 rfl).1,
   ((c2_result_invariant.1 b500
      ⟨"easton-chop-up", [], 0, some "HTTP 500: Internal Server Error"⟩ rfl).1 rfl).1⟩

/-- Claim C3: whenever the pagination loop throws — however many pages
were already accumulated — the catch branch returns the record with
empty items, zero count and the failure description; concretely, under
an oracle serving one good two-item page and then only HTTP 500, the
first page is fetched successfully and yet the final result is the empty
failure record, the partial page discarded. -/
theorem c3_failure_empties_result :
    (∀ (b : Loader.Behavior Nat) (e : String),
       (Loader.fetchPlaylistCloudcasts b EastonChopUp.MIXCLOUD_USERNAME
         EastonChopUp.PLAYLIST_SLUG).result = .error e →
       EastonChopUp.load b = .ok ⟨EastonChopUp.PLAYLIST_SLUG, [], 0, some e⟩) ∧
    ((Loader.fetchWithRetry b2fail 0 (Loader.playlistUrl EastonChopUp.MIXCLOUD_USERNAME
        EastonChopUp.PLAYLIST_SLUG)).result = .ok (some ⟨some [1, 2], some "u"⟩)) ∧
    (EastonChopUp.load b2fail =
      .ok ⟨"easton-chop-up", [], 0, some "HTTP 500: Internal Server Error"⟩) := by
  refine ⟨?_, rfl, rfl⟩
  intro b e h
  unfold EastonChopUp.load
  rw [h]

/-- Claim C3, witness: the general implication applied to the all-500
oracle. -/
theorem c3_witness :
    EastonChopUp.load b500 =
      .ok ⟨"easton-chop-up", [], 0, some "HTTP 500: Internal Server Error"⟩ :=
  c3_failure_empties_result.1 b500 "HTTP 500: Internal Server Error" rfl

end GrooveLib
namespace GrooveLib

/-- Claim C4: a successful fetch returns exactly the concatenation of
the retrieved pages' item lists, in page order, with no duplication and
no reordering — in both loader variants — and the concrete three-pages-
of-two scenario yields count 6, failure absent, items in page order. -/
theorem c4_pages_concatenated :
    (∀ (b : Loader.Behavior Nat) (l : List Nat),
       (Loader.fetchPlaylistCloudcasts b EastonChopUp.MIXCLOUD_USERNAME
         EastonChopUp.PLAYLIST_SLUG).result = .ok l →
       l = (Loader.retrievedPages b EastonChopUp.MIXCLOUD_USERNAME
         EastonChopUp.PLAYLIST_SLUG).flatten) ∧
    (∀ (bc : Mixcloud.MixBehavior Nat) (n : Nat) (l : List Nat) (pg : Nat),
       Mixcloud.fetchAllCloudcasts bc n = some (.ok (l, pg)) →
       ∃ pages, Mixcloud.mixPages bc n = some pages ∧ l = pages.flatten) ∧
    (Loader.retrievedPages b3 EastonChopUp.MIXCLOUD_USERNAME EastonChopUp.PLAYLIST_SLUG =
      [[1, 2], [3, 4], [5, 6]]) ∧
    (EastonChopUp.load b3 = .ok ⟨"easton-chop-up", [1, 2, 3, 4, 5, 6], 6, none⟩) := by
  refine ⟨?_, ?_, rfl, rfl⟩
  · intro b l h
    have := Loader.fetchPlaylistGo_ok_flatten b 100
      (some (Loader.playlistUrl EastonChopUp.MIXCLOUD_USERNAME EastonChopUp.PLAYLIST_SLUG))
      [] 0 0 l h
    simpa using this
  · intro bc n l pg h
    obtain ⟨pages, hpg, hl⟩ := Mixcloud.fetchAllGo_ok_flatten bc n
      (some Mixcloud.initialCloudcastsUrl) [] 0 0 l pg h
    exact ⟨pages, hpg, by simpa using hl⟩

/-- Claim C4, witness: the two general implications applied to the
three-page oracle `b3` (looping loader) and to the single-page oracle
`mOk` (mixcloud loader). -/
theorem c4_witness :
    ([1, 2, 3, 4, 5, 6] : List Nat) =
        (Loader.retrievedPages b3 EastonChopUp.MIXCLOUD_USERNAME
          EastonChopUp.PLAYLIST_SLUG).flatten ∧
    (∃ pages, Mixcloud.mixPages mOk 1 = some pages ∧ ([5] : List Nat) = pages.flatten) :=
  ⟨c4_pages_concatenated.1 b3 [1, 2, 3, 4, 5, 6] rfl,
   c4_pages_concatenated.2.1 mOk 1 [5] 1 rfl⟩

set_option maxRecDepth 40000

/-- Claim C5, counterexample: the pagination loop of mixcloud.js has no
page-count ceiling — under an oracle serving 101 one-item pages it
fetches all 101 of them, more than the claimed hard ceiling of 100. -/
theorem c5_counterexample :
    Mixcloud.fetchAllCloudcasts m101 200 = some (.ok (List.range 101, 101)) ∧
    ¬(101 ≤ 100) :=
  ⟨rfl, by decide⟩

/-- Claim C5 (amended): the loop-based playlist loaders
(eastonChopUp.js, theJapanGrooveLibrary.js) enforce the hard 100-page
ceiling — no run fetches more than 100 pages, and under an oracle whose
pages always carry a next pointer the loop stops at exactly 100 pages
and returns the accumulated items as a successful, non-failure result;
mixcloud.js's fetchAllCloudcasts has no such ceiling and keeps
paginating while a next pointer is present, as the counterexample
shows. -/
theorem c5_amended :
    (∀ (b : Loader.Behavior Nat) (username playlistSlug : String),
       (Loader.fetchPlaylistCloudcasts b username playlistSlug).pages ≤ 100) ∧
    ((Loader.fetchPlaylistCloudcasts bCyc EastonChopUp.MIXCLOUD_USERNAME
        EastonChopUp.PLAYLIST_SLUG).pages = 100) ∧
    (EastonChopUp.load bCyc = .ok ⟨"easton-chop-up", List.range 100, 100, none⟩) := by
  refine ⟨?_, rfl, rfl⟩
  intro b username playlistSlug
  have := Loader.fetchPlaylistGo_pages_le b 100
    (some (Loader.playlistUrl username playlistSlug)) [] 0 0
  simpa using this

/-- Claim C6, counterexample: mixcloud.js's recursive fetchWithRetry
makes 4 attempts — the initial one plus MAX_RETRIES = 3 retries — not 3,
before propagating the failure when every request returns HTTP 500. -/
theorem c6_counterexample :
    (Mixcloud.fetchWithRetry m500 0 Mixcloud.profileUrl).calls = 4 ∧
    (Mixcloud.fetchWithRetry m500 0 Mixcloud.profileUrl).calls ≠ 3 :=
  ⟨rfl, by decide⟩

/-- Claim C6 (amended): when every request returns HTTP 500, the
loop-based loaders' fetchWithRetry makes exactly 3 attempts (with
backoff waits of 1s then 2s) and propagates "HTTP 500: Internal Server
Error", and the loader's result carries that description with items
empty and count 0; mixcloud.js's recursive fetchWithRetry instead makes
4 attempts (initial plus 3 retries, waits 1s, 2s, 4s) and its result
carries "API Error: 500 - Internal Server Error" — both descriptions
mention 500, with items empty and count 0. -/
theorem c6_amended :
    (∀ (b : Loader.Behavior Nat),
       (∀ n, ∃ body, b n = .response 500 "Internal Server Error" body) →
       ∀ (c : Nat) (url : String),
         Loader.fetchWithRetry b c url =
           ⟨.error "HTTP 500: Internal Server Error", 3, [1000, 2000]⟩) ∧
    (EastonChopUp.load b500 =
      .ok ⟨"easton-chop-up", [], 0, some "HTTP 500: Internal Server Error"⟩) ∧
    (mentions "500" "HTTP 500: Internal Server Error" = true) ∧
    (Mixcloud.fetchWithRetry m500 0 Mixcloud.profileUrl =
      ⟨.error "API Error: 500 - Internal Server Error", 4, [1000, 2000, 4000]⟩) ∧
    (Mixcloud.load m500 m500 10 =
      some (.ok ⟨"legendarymusic", none, [], 0, some "API Error: 500 - Internal Server Error"⟩)) ∧
    (mentions "500" "API Error: 500 - Internal Server Error" = true) := by
  refine ⟨?_, rfl, rfl, rfl, rfl, rfl⟩
  intro b hb c url
  obtain ⟨bd0, h0⟩ := hb c
  obtain ⟨bd1, h1⟩ := hb (c + 1)
  obtain ⟨bd2, h2⟩ := hb (c + 2)
  show Loader.fetchWithRetryGo b url c 3 1000 = _
  rw [Loader.fetchWithRetryGo, h0]
  norm_num [respOk]
  rw [Loader.fetchWithRetryGo, h1]
  norm_num [respOk]
  rw [Loader.fetchWithRetryGo, h2]
  norm_num [respOk]
  rfl

/-- Claim C6, witness: the loop-variant implication applied to the
all-500 oracle. -/
theorem c6_witness :
    Loader.fetchWithRetry b500 0 "u" =
      ⟨.error "HTTP 500: Internal Server Error", 3, [1000, 2000]⟩ :=
  c6_amended.1 b500 (fun _ => ⟨.ok ⟨none, none⟩, rfl⟩) 0 "u"

end GrooveLib
namespace GrooveLib

/-- Claim C7: when a page's request gets HTTP 429 once and the next
attempt succeeds, fetchWithRetry performs exactly one retry — two fetch
calls, after a single 1000 ms backoff wait — and returns the page once;
concretely, under the 429-then-success oracle the final result is
successful and contains that page's two items exactly once. -/
theorem c7_rate_limited_page_retried_once :
    (∀ (b : Loader.Behavior Nat) (c : Nat) (url st : String)
       (body : Except String (Loader.Page Nat)) (p : Loader.Page Nat),
       b c = .response 429 st body →
       b (c + 1) = .response 200 "OK" (.ok p) →
       Loader.fetchWithRetry b c url = ⟨.ok (some p), 2, [1000]⟩) ∧
    (Loader.fetchWithRetry b429once 0 "u" = ⟨.ok (some ⟨some [7, 8], none⟩), 2, [1000]⟩) ∧
    (EastonChopUp.load b429once = .ok ⟨"easton-chop-up", [7, 8], 2, none⟩) := by
  refine ⟨?_, rfl, rfl⟩
  intro b c url st body p h0 h1
  show Loader.fetchWithRetryGo b url c 3 1000 = _
  rw [Loader.fetchWithRetryGo, h0]
  norm_num
  rw [Loader.fetchWithRetryGo, h1]
  norm_num [respOk]

/-- Claim C7, witness: the implication applied to the concrete
429-then-success oracle. -/
theorem c7_witness :
    Loader.fetchWithRetry b429once 0 "url" = ⟨.ok (some ⟨some [7, 8], none⟩), 2, [1000]⟩ :=
  c7_rate_limited_page_retried_once.1 b429once 0 "url" "Too Many Requests"
    (.error "rate limit body") ⟨some [7, 8], none⟩ rfl rfl

/-- Claim C8: when reading tracklists.json fails, the loader warns,
proceeds with the empty table, and still returns the normal success
record whose items are exactly the fetched cloudcasts, unenriched — the
missing file never fails the load. -/
theorem c8_missing_tracklists_tolerated :
    (∀ e : String, TheJapanGrooveLibrary.loadManualTracklists (.error e) = ⟨[], true⟩) ∧
    (∀ (e : String) (b : Loader.Behavior TheJapanGrooveLibrary.Cloudcast)
       (cs : List TheJapanGrooveLibrary.Cloudcast),
       (Loader.fetchPlaylistCloudcasts b TheJapanGrooveLibrary.MIXCLOUD_USERNAME
         TheJapanGrooveLibrary.PLAYLIST_SLUG).result = .ok cs →
       TheJapanGrooveLibrary.load (.error e) b =
         .ok ⟨TheJapanGrooveLibrary.PLAYLIST_SLUG, cs, cs.length, none⟩) := by
  refine ⟨fun e => rfl, ?_⟩
  intro e b cs h
  simp only [TheJapanGrooveLibrary.load, TheJapanGrooveLibrary.loadManualTracklists]
  rw [h]
  dsimp only
  rw [TheJapanGrooveLibrary.mergeTracklists_nil]

/-- Claim C8, witness: the implication applied to a read error and a
one-page oracle. -/
theorem c8_witness :
    TheJapanGrooveLibrary.load (.error "ENOENT: no such file or directory") bTJ =
      .ok ⟨"the-japan-groove-library", [cJGL], 1, none⟩ :=
  c8_missing_tracklists_tolerated.2 "ENOENT: no such file or directory" bTJ [cJGL] rfl

/-- Claim C9: mergeTracklists preserves length and order; a cloudcast
whose normalized key misses the table is returned unchanged, and one
with a matching entry is returned with its sections field set to the
conversion of the table entry and every other field identical. -/
theorem c9_merge_frame :
    ∀ (table : TheJapanGrooveLibrary.TracklistTable)
      (cs : List TheJapanGrooveLibrary.Cloudcast),
      (TheJapanGrooveLibrary.mergeTracklists table cs).length = cs.length ∧
      (∀ i : Nat, (TheJapanGrooveLibrary.mergeTracklists table cs)[i]? =
        (cs[i]?).map (TheJapanGrooveLibrary.mergeOne table)) ∧
      (∀ c : TheJapanGrooveLibrary.Cloudcast,
        TheJapanGrooveLibrary.tableLookup table (TheJapanGrooveLibrary.normalizedKey c.key) =
          none →
        TheJapanGrooveLibrary.mergeOne table c = c) ∧
      (∀ (c : TheJapanGrooveLibrary.Cloudcast) (tracks : List TheJapanGrooveLibrary.Track),
        TheJapanGrooveLibrary.tableLookup table (TheJapanGrooveLibrary.normalizedKey c.key) =
          some tracks →
        (TheJapanGrooveLibrary.mergeOne table c).key = c.key ∧
        (TheJapanGrooveLibrary.mergeOne table c).name = c.name ∧
        (TheJapanGrooveLibrary.mergeOne table c).url = c.url ∧
        (TheJapanGrooveLibrary.mergeOne table c).created_time = c.created_time ∧
        (TheJapanGrooveLibrary.mergeOne table c).audio_length = c.audio_length ∧
        (TheJapanGrooveLibrary.mergeOne table c).sections =
          some (TheJapanGrooveLibrary.tracksToSections tracks)) := by
  intro table cs
  refine ⟨?_, ?_, ?_, ?_⟩
  · simp [TheJapanGrooveLibrary.mergeTracklists]
  · intro i
    simp [TheJapanGrooveLibrary.mergeTracklists]
  · intro c h
    unfold TheJapanGrooveLibrary.mergeOne
    rw [h]
  · intro c tracks h
    unfold TheJapanGrooveLibrary.mergeOne
    rw [h]
    exact ⟨rfl, rfl, rfl, rfl, rfl, rfl⟩

/-- Claim C9, witness: the frame property applied to a one-entry table,
a matching cloudcast and a non-matching one. -/
theorem c9_witness :
    (TheJapanGrooveLibrary.mergeOne table0 cJGL).sections =
        some (TheJapanGrooveLibrary.tracksToSections tr0) ∧
    TheJapanGrooveLibrary.mergeOne table0 cOther = cOther :=
  ⟨((c9_merge_frame table0 []).2.2.2 cJGL tr0 rfl).2.2.2.2.2,
   (c9_merge_frame table0 []).2.2.1 cOther rfl⟩

/-- Claim C10: when all 3 attempts of the loop-based fetchWithRetry are
answered HTTP 429, the loop falls through and the function returns
undefined (no rate-limit error is thrown); the pagination loop's
data.data access on that undefined value is what throws, so the failure
recorded by the loader is the TypeError message, which mentions neither
429 nor rate limiting. -/
theorem c10_exhausted_rate_limit_returns_undefined :
    (∀ (b : Loader.Behavior Nat),
       (∀ n, ∃ st body, b n = .response 429 st body) →
       ∀ (c : Nat) (url : String),
         Loader.fetchWithRetry b c url = ⟨.ok none, 3, [1000, 2000, 4000]⟩) ∧
    (∀ (b : Loader.Behavior Nat) (c : Nat) (u : String) (fuel : Nat) (acc : List Nat)
       (pg k : Nat) (w : List Nat),
       Loader.fetchWithRetry b c u = ⟨.ok none, k, w⟩ →
       Loader.fetchPlaylistGo b (fuel + 1) (some u) acc c pg =
         ⟨.error Loader.undefinedDataMsg, pg⟩) ∧
    (EastonChopUp.load b429 = .ok ⟨"easton-chop-up", [], 0, some Loader.undefinedDataMsg⟩) ∧
    (mentions "429" Loader.undefinedDataMsg = false) ∧
    (mentions "Rate" Loader.undefinedDataMsg = false) ∧
    (mentions "rate" Loader.undefinedDataMsg = false) ∧
    (mentions "limit" Loader.undefinedDataMsg = false) := by
  refine ⟨?_, ?_, rfl, rfl, rfl, rfl, rfl⟩
  · intro b hb c url
    obtain ⟨st0, bd0, h0⟩ := hb c
    obtain ⟨st1, bd1, h1⟩ := hb (c + 1)
    obtain ⟨st2, bd2, h2⟩ := hb (c + 2)
    show Loader.fetchWithRetryGo b url c 3 1000 = _
    rw [Loader.fetchWithRetryGo, h0]
    norm_num
    rw [Loader.fetchWithRetryGo, h1]
    norm_num
    rw [Loader.fetchWithRetryGo, h2]
    norm_num
    exact ⟨rfl, rfl, rfl⟩
  · intro b c u fuel acc pg k w h
    rw [Loader.fetchPlaylistGo, h]

/-- Claim C10, witness: both implications applied to the all-429
oracle. -/
theorem c10_witness :
    Loader.fetchWithRetry b429 0 "u" = ⟨.ok none, 3, [1000, 2000, 4000]⟩ ∧
    Loader.fetchPlaylistGo b429 100 (some "u") [] 0 0 =
      ⟨.error Loader.undefinedDataMsg, 0⟩ := by
  constructor
  · exact c10_exhausted_rate_limit_returns_undefined.1 b429
      (fun _ => ⟨"Too Many Requests", .ok ⟨none, none⟩, rfl⟩) 0 "u"
  · exact c10_exhausted_rate_limit_returns_undefined.2.1 b429 0 "u" 99 [] 0 3
      [1000, 2000, 4000]
      (c10_exhausted_rate_limit_returns_undefined.1 b429
        (fun _ => ⟨"Too Many Requests", .ok ⟨none, none⟩, rfl⟩) 0 "u")

end GrooveLib
